import Mathlib

/-!
Verification of the `store` package of focalboard
(`server/services/store/store.go`): the `ErrNotFound` error type, the
`IsErrNotFound` classifier, and the contract of the `Store` interface.

Go error values are modelled as `Option GoError`: `none` is the nil
error, and a non-nil error is either a concrete `*ErrNotFound`, an
opaque backend error, or a wrapping error (as produced by
`fmt.Errorf` with the `%w` verb), whose `Unwrap` yields the inner
error.  `errors.As(err, &nf)` with a `**ErrNotFound` target walks the
unwrap chain looking for an `*ErrNotFound`.
-/

/-- A non-nil Go error value, as relevant to the store package:
a concrete `*ErrNotFound`, an opaque error from some other source, or
an error wrapping another error (`fmt.Errorf(".. %w ..", err)`). -/
inductive GoError where
  | errNotFound (resource : String) : GoError
  | other (msg : String) : GoError
  | wrap (msg : String) (inner : GoError) : GoError
deriving DecidableEq, Repr

/-- `NewErrNotFound` from store.go: `return &ErrNotFound{resource: resource}`. -/
def NewErrNotFound (resource : String) : GoError :=
  GoError.errNotFound resource

/-- The traversal done by `errors.As(err, &nf)` for a `**ErrNotFound`
target: succeed if the error itself is an `*ErrNotFound`, otherwise
follow `Unwrap`; errors with no unwrap method end the chain. -/
def errorsAsErrNotFound : GoError → Option String
  | GoError.errNotFound r => some r
  | GoError.other _ => none
  | GoError.wrap _ inner => errorsAsErrNotFound inner

/-- `IsErrNotFound` from store.go:
`if err == nil { return false }; var nf *ErrNotFound; return errors.As(err, &nf)`. -/
def IsErrNotFound : Option GoError → Bool
  | none => false
  | some e => (errorsAsErrNotFound e).isSome

/-- The spec-level notion "is an ErrNotFound or wraps an ErrNotFound
somewhere in its error chain", stated independently of the code of
`IsErrNotFound`. -/
inductive ChainContainsNotFound : GoError → Prop where
  | base (r : String) : ChainContainsNotFound (GoError.errNotFound r)
  | step (msg : String) (e : GoError) :
      ChainContainsNotFound e → ChainContainsNotFound (GoError.wrap msg e)

/-- Model of `fmt.Sprintf` restricted to format strings whose only verb
is a single `%s`: literal characters are copied and the verb is
replaced by the argument. -/
def sprintfOneS : List Char → String → String
  | [], _ => ""
  | c :: rest, arg =>
    if c = '%' then
      match rest with
      | 's' :: rest2 => arg ++ String.mk rest2
      | _ => String.mk [c] ++ sprintfOneS rest arg
    else String.mk [c] ++ sprintfOneS rest arg

/-- `(nf *ErrNotFound) Error()` from store.go:
`fmt.Sprintf("{%s} not found", nf.resource)`. -/
def errNotFoundErrorMessage (resource : String) : String :=
  sprintfOneS "\x7b%s\x7d not found".data resource

/-!
The concrete implementation of the `Store` interface is not part of the
excerpt: only the interface declaration is.  The store state and the
operations below are therefore modelled from the spec (sections 3, 4.1
and 8), over the entity attributes the spec names.
-/

/-- Modelled from the spec: a Block "has an identifier, a parent
identifier, a root identifier, a type tag, and belongs to a board"
(the concrete `model.Block` type is not in the excerpt). -/
structure Block where
  id : String
  parentID : String
  rootID : String
  type : String
  boardID : String
deriving DecidableEq, Repr

/-- Modelled from the spec: a Board "has an identifier" and an
"association with a team" (the concrete `model.Board` type is not in
the excerpt). -/
structure Board where
  id : String
  teamID : String
deriving DecidableEq, Repr

/-- Modelled from the spec: a User is "unique by identifier, email, and
username" (the concrete `model.User` type is not in the excerpt). -/
structure User where
  id : String
  username : String
  email : String
  teamID : String
deriving DecidableEq, Repr

/-- Modelled from the spec: the backing store visible through the
`Store` interface operations used by the claims, with one table per
entity family (the concrete adapter is not in the excerpt). -/
structure StoreState where
  blocks : List Block
  boards : List Board
  users : List User
deriving DecidableEq, Repr

def findBlock (s : StoreState) (blockID : String) : Option Block :=
  s.blocks.find? (fun b => b.id == blockID)

def findBoard (s : StoreState) (boardID : String) : Option Board :=
  s.boards.find? (fun b => b.id == boardID)

def findUser (s : StoreState) (userID : String) : Option User :=
  s.users.find? (fun u => u.id == userID)

/-- Modelled from the spec: `Store.GetBlock` (only declared in the
excerpt) — "Every lookup-by-identifier operation either returns the
entity or fails with a NotFound error kind". -/
def GetBlock (s : StoreState) (blockID : String) : Except GoError Block :=
  match findBlock s blockID with
  | some b => Except.ok b
  | none => Except.error (NewErrNotFound "block")

/-- Modelled from the spec: `Store.GetBoard` (only declared in the
excerpt) — lookup by identifier, NotFound when absent. -/
def GetBoard (s : StoreState) (boardID : String) : Except GoError Board :=
  match findBoard s boardID with
  | some b => Except.ok b
  | none => Except.error (NewErrNotFound "board")

/-- Modelled from the spec: `Store.GetUserByID` (only declared in the
excerpt) — lookup by identifier, NotFound when absent. -/
def GetUserByID (s : StoreState) (userID : String) : Except GoError User :=
  match findUser s userID with
  | some u => Except.ok u
  | none => Except.error (NewErrNotFound "user")

/-- A block is well-formed with respect to a store state and the other
members of its batch when its parent identifier is empty (the block is
a root) or references an existing block, per the spec invariant "a
block's parent/root identifiers, if non-empty, must reference existing
blocks or be treated as roots". -/
def blockParentOK (s : StoreState) (batch : List Block) (b : Block) : Bool :=
  b.parentID == "" || (findBlock s b.parentID).isSome ||
    batch.any (fun x => x.id == b.parentID)

def insertBlockRaw (s : StoreState) (b : Block) : StoreState :=
  { s with blocks := b :: s.blocks.filter (fun x => x.id != b.id) }

def insertBoardRaw (s : StoreState) (b : Board) : StoreState :=
  { s with boards := b :: s.boards.filter (fun x => x.id != b.id) }

/-- Modelled from the spec: `Store.InsertBlock` (only declared in the
excerpt) — persists the block keyed by its identifier, attributed to
the acting user; an invalid block (non-existent parent) is rejected. -/
def InsertBlock (s : StoreState) (b : Block) (userID : String) :
    Option GoError × StoreState :=
  if blockParentOK s [] b then (none, insertBlockRaw s b)
  else (some (GoError.other ("invalid block " ++ b.id)), s)

/-- Modelled from the spec: `model.BoardsAndBlocks` (only referenced in
the excerpt) — the collection of changes accepted by the combined
boards-and-blocks batch operations. -/
structure BoardsAndBlocks where
  boards : List Board
  blocks : List Block
deriving DecidableEq, Repr

/-- Modelled from the spec: `model.BlockPatch` (only referenced in the
excerpt) — a patch-style partial update of a block. -/
structure BlockPatch where
  newType : Option String
deriving DecidableEq, Repr

/-- Modelled from the spec: `model.BoardPatch` (only referenced in the
excerpt) — a patch-style partial update of a board. -/
structure BoardPatch where
  newTeamID : Option String
deriving DecidableEq, Repr

/-- Modelled from the spec: `model.PatchBoardsAndBlocks` (only
referenced in the excerpt) — identifiers paired with their patches. -/
structure PatchBoardsAndBlocksInput where
  blockPatches : List (String × BlockPatch)
  boardPatches : List (String × BoardPatch)
deriving DecidableEq, Repr

/-- Modelled from the spec: `model.DeleteBoardsAndBlocks` (only
referenced in the excerpt) — identifiers of the boards and blocks to
delete as one unit. -/
structure DeleteBoardsAndBlocksInput where
  boardIDs : List String
  blockIDs : List String
deriving DecidableEq, Repr

def applyBlockPatch (b : Block) (p : BlockPatch) : Block :=
  { b with type := p.newType.getD b.type }

def applyBoardPatch (b : Board) (p : BoardPatch) : Board :=
  { b with teamID := p.newTeamID.getD b.teamID }

def patchBlockRaw (s : StoreState) (blockID : String) (p : BlockPatch) :
    StoreState :=
  { s with blocks :=
      s.blocks.map (fun b => if b.id == blockID then applyBlockPatch b p else b) }

def patchBoardRaw (s : StoreState) (boardID : String) (p : BoardPatch) :
    StoreState :=
  { s with boards :=
      s.boards.map (fun b => if b.id == boardID then applyBoardPatch b p else b) }

/-- Modelled from the spec: `Store.InsertBlocks` (only declared in the
excerpt) — applies the batch "as one unit; partial application on
failure is not a conforming outcome": if any block of the batch is
invalid (references a non-existent parent) nothing is persisted. -/
def InsertBlocks (s : StoreState) (blocks : List Block) (userID : String) :
    Option GoError × StoreState :=
  if blocks.all (fun b => blockParentOK s blocks b) then
    (none, blocks.foldl insertBlockRaw s)
  else (some (GoError.other "invalid block batch"), s)

/-- Modelled from the spec: `Store.CreateBoardsAndBlocks` (only declared
in the excerpt) — creates the boards and the blocks as one unit, or
nothing when any block of the batch is invalid. -/
def CreateBoardsAndBlocks (s : StoreState) (bab : BoardsAndBlocks)
    (userID : String) : Option GoError × StoreState :=
  if bab.blocks.all (fun b => blockParentOK s bab.blocks b) then
    (none, bab.blocks.foldl insertBlockRaw (bab.boards.foldl insertBoardRaw s))
  else (some (GoError.other "invalid boards and blocks"), s)

/-- Modelled from the spec: `Store.PatchBoardsAndBlocks` (only declared
in the excerpt) — applies every patch as one unit, or nothing when any
patched identifier does not exist. -/
def PatchBoardsAndBlocks (s : StoreState) (pbab : PatchBoardsAndBlocksInput)
    (userID : String) : Option GoError × StoreState :=
  if pbab.blockPatches.all (fun pr => (findBlock s pr.1).isSome) &&
      pbab.boardPatches.all (fun pr => (findBoard s pr.1).isSome) then
    (none, pbab.boardPatches.foldl (fun st pr => patchBoardRaw st pr.1 pr.2)
      (pbab.blockPatches.foldl (fun st pr => patchBlockRaw st pr.1 pr.2) s))
  else (some (NewErrNotFound "patch target"), s)

/-- Modelled from the spec: `Store.DeleteBoardsAndBlocks` (only declared
in the excerpt) — deletes every listed board and block as one unit, or
nothing when any listed identifier does not exist. -/
def DeleteBoardsAndBlocks (s : StoreState) (dbab : DeleteBoardsAndBlocksInput)
    (userID : String) : Option GoError × StoreState :=
  if dbab.blockIDs.all (fun blockID => (findBlock s blockID).isSome) &&
      dbab.boardIDs.all (fun boardID => (findBoard s boardID).isSome) then
    (none,
      { blocks := s.blocks.filter (fun b => !(dbab.blockIDs.contains b.id)),
        boards := s.boards.filter (fun b => !(dbab.boardIDs.contains b.id)),
        users := s.users })
  else (some (NewErrNotFound "delete target"), s)

/-- Modelled from the spec: `Store.DeleteBlock` (only declared in the
excerpt) — "deleting a non-existent identifier either fails with
NotFound or is a no-op (implementation must pick one and document it
consistently)"; this model consistently picks NotFound. -/
def DeleteBlock (s : StoreState) (blockID : String) (modifiedBy : String) :
    Option GoError × StoreState :=
  match findBlock s blockID with
  | some _ =>
      (none, { s with blocks := s.blocks.filter (fun b => b.id != blockID) })
  | none => (some (NewErrNotFound "block"), s)

/-- Modelled from the spec: `Store.DeleteBoard` (only declared in the
excerpt) — same delete contract as `DeleteBlock`, for boards. -/
def DeleteBoard (s : StoreState) (boardID : String) (userID : String) :
    Option GoError × StoreState :=
  match findBoard s boardID with
  | some _ =>
      (none, { s with boards := s.boards.filter (fun b => b.id != boardID) })
  | none => (some (NewErrNotFound "board"), s)

/-- Modelled from the spec: the walk from a block up its parent chain to
"the nearest card" — the block itself when it is "card"-typed,
otherwise the nearest card ancestor; NotFound when the chain ends (or
the fuel runs out on a cyclic chain) with no card met. -/
def nearestCard (s : StoreState) : Nat → Block → Except GoError Block
  | 0, _ => Except.error (NewErrNotFound "card")
  | fuel + 1, b =>
    if b.type == "card" then Except.ok b
    else
      match findBlock s b.parentID with
      | some p => nearestCard s fuel p
      | none => Except.error (NewErrNotFound "card")

/-- Modelled from the spec: `Store.GetBoardAndCard` (only declared in
the excerpt) — given the block itself, "resolve a block to its owning
board and ... the nearest card — returning both or failing NotFound if
either cannot be resolved". -/
def GetBoardAndCard (s : StoreState) (b : Block) :
    Except GoError (Board × Block) :=
  match findBoard s b.boardID with
  | none => Except.error (NewErrNotFound "board")
  | some brd =>
    match nearestCard s (s.blocks.length + 1) b with
    | Except.ok c => Except.ok (brd, c)
    | Except.error e => Except.error e

/-- Modelled from the spec: `Store.GetBoardAndCardByID` (only declared
in the excerpt) — same resolution starting from a block identifier:
fetch the block (NotFound when absent), then resolve as
`GetBoardAndCard`. -/
def GetBoardAndCardByID (s : StoreState) (blockID : String) :
    Except GoError (Board × Block) :=
  match findBlock s blockID with
  | none => Except.error (NewErrNotFound "block")
  | some b => GetBoardAndCard s b

/-- The spec-level relation "c is the nearest card at or above b": b
itself when b is card-typed, else the nearest card of b's parent, every
block strictly below c on the chain being non-card. -/
inductive CardResolution (s : StoreState) : Block → Block → Prop where
  | here (b : Block) : b.type = "card" → CardResolution s b b
  | up (b p c : Block) : b.type ≠ "card" → findBlock s b.parentID = some p →
      CardResolution s p c → CardResolution s b c

instance {ε α : Type} [DecidableEq ε] [DecidableEq α] :
    DecidableEq (Except ε α) := fun a b =>
  match a, b with
  | Except.ok x, Except.ok y =>
      if h : x = y then Decidable.isTrue (by rw [h])
      else Decidable.isFalse (fun hc => h (by cases hc; rfl))
  | Except.error x, Except.error y =>
      if h : x = y then Decidable.isTrue (by rw [h])
      else Decidable.isFalse (fun hc => h (by cases hc; rfl))
  | Except.ok _, Except.error _ => Decidable.isFalse (fun hc => by cases hc)
  | Except.error _, Except.ok _ => Decidable.isFalse (fun hc => by cases hc)

/-- C1: every error that is an ErrNotFound or wraps one anywhere in its
chain is classified as not-found by `IsErrNotFound`; in particular
`IsErrNotFound (NewErrNotFound r)` holds for every resource `r`. -/
theorem isErrNotFound_of_chainContains
    (e : GoError) (h : ChainContainsNotFound e) :
    IsErrNotFound (some e) = true ∧
      ∀ r : String, IsErrNotFound (some (NewErrNotFound r)) = true := by
  constructor
  · induction h with
    | base r => rfl
    | step msg e _ ih =>
        simpa [IsErrNotFound, errorsAsErrNotFound] using ih
  · intro r
    rfl

theorem isErrNotFound_of_chainContains_witness :
    IsErrNotFound (some (GoError.wrap "query boards"
        (NewErrNotFound "board"))) = true ∧
      ∀ r : String, IsErrNotFound (some (NewErrNotFound r)) = true :=
  isErrNotFound_of_chainContains _
    (ChainContainsNotFound.step _ _ (ChainContainsNotFound.base "board"))

/-- C2: a non-nil error that neither is an ErrNotFound nor wraps one
anywhere in its chain is never classified as not-found. -/
theorem isErrNotFound_eq_false_of_not_chainContains
    (e : GoError) (h : ¬ ChainContainsNotFound e) :
    IsErrNotFound (some e) = false := by
  induction e with
  | errNotFound r => exact absurd (ChainContainsNotFound.base r) h
  | other msg => rfl
  | wrap msg inner ih =>
      have hi : ¬ ChainContainsNotFound inner := fun hc =>
        h (ChainContainsNotFound.step msg inner hc)
      simpa [IsErrNotFound, errorsAsErrNotFound] using ih hi

theorem isErrNotFound_eq_false_of_not_chainContains_witness :
    IsErrNotFound (some (GoError.wrap "tx failed"
        (GoError.other "connection reset"))) = false :=
  isErrNotFound_eq_false_of_not_chainContains _
    (fun hc => by cases hc with
      | step _ _ hinner => cases hinner)

/-- C4: the nil error, the success outcome of every store operation, is
never classified as not-found. -/
theorem isErrNotFound_nil : IsErrNotFound none = false := rfl

/-- C3: the message of `NewErrNotFound(r)` is exactly
`"{" ++ r ++ "} not found"`, identifying the resource that was missing. -/
theorem errNotFoundErrorMessage_eq (r : String) :
    errNotFoundErrorMessage r = "\x7b" ++ r ++ "\x7d not found" := by
  show sprintfOneS "\x7b%s\x7d not found".data r = "\x7b" ++ r ++ "\x7d not found"
  have hd : "\x7b%s\x7d not found".data
      = '\x7b' :: '%' :: 's' :: "\x7d not found".data := rfl
  rw [hd]
  simp only [sprintfOneS]
  norm_num
  rw [String.append_assoc]
  rfl

/-- C5: a lookup by an identifier not present in the backing store fails
with an error classified as NotFound by `IsErrNotFound`, and never
returns a silent empty/zero result. -/
theorem lookup_absent_isNotFound (s : StoreState) (id : String)
    (hb : findBlock s id = none) (hbd : findBoard s id = none)
    (hu : findUser s id = none) :
    (∃ e, GetBlock s id = Except.error e ∧ IsErrNotFound (some e) = true) ∧
    (∃ e, GetBoard s id = Except.error e ∧ IsErrNotFound (some e) = true) ∧
    (∃ e, GetUserByID s id = Except.error e ∧ IsErrNotFound (some e) = true) := by
  refine ⟨⟨NewErrNotFound "block", ?_, rfl⟩,
    ⟨NewErrNotFound "board", ?_, rfl⟩,
    ⟨NewErrNotFound "user", ?_, rfl⟩⟩
  · simp [GetBlock, hb]
  · simp [GetBoard, hbd]
  · simp [GetUserByID, hu]

theorem lookup_absent_isNotFound_witness :
    (∃ e, GetBlock ⟨[], [], []⟩ "missing" = Except.error e ∧
        IsErrNotFound (some e) = true) ∧
    (∃ e, GetBoard ⟨[], [], []⟩ "missing" = Except.error e ∧
        IsErrNotFound (some e) = true) ∧
    (∃ e, GetUserByID ⟨[], [], []⟩ "missing" = Except.error e ∧
        IsErrNotFound (some e) = true) :=
  lookup_absent_isNotFound ⟨[], [], []⟩ "missing" rfl rfl rfl

/-- C6: inserting a block and then immediately fetching it by its
identifier returns a value equal (on all persisted fields) to the one
inserted. -/
theorem insertBlock_then_getBlock (s : StoreState) (b : Block) (u : String)
    (h : (InsertBlock s b u).1 = none) :
    GetBlock (InsertBlock s b u).2 b.id = Except.ok b := by
  by_cases hok : blockParentOK s [] b = true
  · simp [InsertBlock, hok, GetBlock, findBlock, insertBlockRaw, List.find?]
  · exfalso
    simp [InsertBlock, hok] at h

theorem insertBlock_then_getBlock_witness :
    GetBlock (InsertBlock ⟨[], [], []⟩ ⟨"c1", "", "c1", "card", "b1"⟩ "u1").2
        "c1" = Except.ok ⟨"c1", "", "c1", "card", "b1"⟩ :=
  insertBlock_then_getBlock ⟨[], [], []⟩ ⟨"c1", "", "c1", "card", "b1"⟩ "u1"
    (by decide)

/-- C7: each batch operation is atomic — when any single item of the
batch is invalid (a block referencing a non-existent parent, a patch or
delete naming a non-existent identifier), the operation fails and the
store state is unchanged. -/
theorem batch_operations_atomic (s : StoreState) (u : String)
    (bs : List Block) (bab : BoardsAndBlocks)
    (pbab : PatchBoardsAndBlocksInput) (dbab : DeleteBoardsAndBlocksInput)
    (h1 : ∃ b ∈ bs, blockParentOK s bs b = false)
    (h2 : ∃ b ∈ bab.blocks, blockParentOK s bab.blocks b = false)
    (h3 : (∃ pr ∈ pbab.blockPatches, findBlock s pr.1 = none) ∨
      (∃ pr ∈ pbab.boardPatches, findBoard s pr.1 = none))
    (h4 : (∃ blockID ∈ dbab.blockIDs, findBlock s blockID = none) ∨
      (∃ boardID ∈ dbab.boardIDs, findBoard s boardID = none)) :
    ((InsertBlocks s bs u).1.isSome = true ∧ (InsertBlocks s bs u).2 = s) ∧
    ((CreateBoardsAndBlocks s bab u).1.isSome = true ∧
      (CreateBoardsAndBlocks s bab u).2 = s) ∧
    ((PatchBoardsAndBlocks s pbab u).1.isSome = true ∧
      (PatchBoardsAndBlocks s pbab u).2 = s) ∧
    ((DeleteBoardsAndBlocks s dbab u).1.isSome = true ∧
      (DeleteBoardsAndBlocks s dbab u).2 = s) := by
  obtain ⟨b1, hb1, hv1⟩ := h1
  obtain ⟨b2, hb2, hv2⟩ := h2
  have g1 : ¬ (bs.all (fun b => blockParentOK s bs b) = true) := by
    intro hall
    have := List.all_eq_true.mp hall b1 hb1
    rw [hv1] at this
    exact Bool.false_ne_true this
  have g2 : ¬ (bab.blocks.all (fun b => blockParentOK s bab.blocks b) = true) := by
    intro hall
    have := List.all_eq_true.mp hall b2 hb2
    rw [hv2] at this
    exact Bool.false_ne_true this
  have g3 : ¬ ((pbab.blockPatches.all (fun pr => (findBlock s pr.1).isSome) &&
      pbab.boardPatches.all (fun pr => (findBoard s pr.1).isSome)) = true) := by
    intro hall
    rw [Bool.and_eq_true] at hall
    rcases h3 with ⟨pr, hpr, hnone⟩ | ⟨pr, hpr, hnone⟩
    · have := List.all_eq_true.mp hall.1 pr hpr
      rw [hnone] at this
      exact Bool.false_ne_true this
    · have := List.all_eq_true.mp hall.2 pr hpr
      rw [hnone] at this
      exact Bool.false_ne_true this
  have g4 : ¬ ((dbab.blockIDs.all (fun blockID => (findBlock s blockID).isSome) &&
      dbab.boardIDs.all (fun boardID => (findBoard s boardID).isSome)) = true) := by
    intro hall
    rw [Bool.and_eq_true] at hall
    rcases h4 with ⟨i, hi, hnone⟩ | ⟨i, hi, hnone⟩
    · have := List.all_eq_true.mp hall.1 i hi
      rw [hnone] at this
      exact Bool.false_ne_true this
    · have := List.all_eq_true.mp hall.2 i hi
      rw [hnone] at this
      exact Bool.false_ne_true this
  refine ⟨?_, ?_, ?_, ?_⟩
  · rw [InsertBlocks, if_neg g1]
    exact ⟨rfl, rfl⟩
  · rw [CreateBoardsAndBlocks, if_neg g2]
    exact ⟨rfl, rfl⟩
  · rw [PatchBoardsAndBlocks, if_neg g3]
    exact ⟨rfl, rfl⟩
  · rw [DeleteBoardsAndBlocks, if_neg g4]
    exact ⟨rfl, rfl⟩

theorem batch_operations_atomic_witness :
    ((InsertBlocks ⟨[], [], []⟩ [⟨"t1", "ghost", "t1", "text", "b1"⟩]
        "u1").1.isSome = true ∧
      (InsertBlocks ⟨[], [], []⟩ [⟨"t1", "ghost", "t1", "text", "b1"⟩]
        "u1").2 = ⟨[], [], []⟩) ∧
    ((CreateBoardsAndBlocks ⟨[], [], []⟩
        ⟨[⟨"b1", "team1"⟩], [⟨"t1", "ghost", "t1", "text", "b1"⟩]⟩
        "u1").1.isSome = true ∧
      (CreateBoardsAndBlocks ⟨[], [], []⟩
        ⟨[⟨"b1", "team1"⟩], [⟨"t1", "ghost", "t1", "text", "b1"⟩]⟩
        "u1").2 = ⟨[], [], []⟩) ∧
    ((PatchBoardsAndBlocks ⟨[], [], []⟩ ⟨[("ghost", ⟨some "card"⟩)], []⟩
        "u1").1.isSome = true ∧
      (PatchBoardsAndBlocks ⟨[], [], []⟩ ⟨[("ghost", ⟨some "card"⟩)], []⟩
        "u1").2 = ⟨[], [], []⟩) ∧
    ((DeleteBoardsAndBlocks ⟨[], [], []⟩ ⟨[], ["ghost"]⟩
        "u1").1.isSome = true ∧
      (DeleteBoardsAndBlocks ⟨[], [], []⟩ ⟨[], ["ghost"]⟩
        "u1").2 = ⟨[], [], []⟩) :=
  batch_operations_atomic ⟨[], [], []⟩ "u1"
    [⟨"t1", "ghost", "t1", "text", "b1"⟩]
    ⟨[⟨"b1", "team1"⟩], [⟨"t1", "ghost", "t1", "text", "b1"⟩]⟩
    ⟨[("ghost", ⟨some "card"⟩)], []⟩
    ⟨[], ["ghost"]⟩
    ⟨⟨"t1", "ghost", "t1", "text", "b1"⟩, by decide, by decide⟩
    ⟨⟨"t1", "ghost", "t1", "text", "b1"⟩, by decide, by decide⟩
    (Or.inl ⟨("ghost", ⟨some "card"⟩), by decide, by decide⟩)
    (Or.inl ⟨"ghost", by decide, by decide⟩)

theorem find?_id_filter_ne_eq_none {α : Type} (key : α → String)
    (l : List α) (anID : String) :
    (l.filter (fun b => key b != anID)).find? (fun b => key b == anID)
      = none := by
  rw [List.find?_eq_none]
  intro x hx
  rcases List.mem_filter.mp hx with ⟨_, hne⟩
  simpa using bne_iff_ne.mp hne

/-- C8: deleting a non-existent identifier consistently fails with a
NotFound error and leaves the state unchanged, and after a successful
delete, a second delete of the same identifier never succeeds again
with side effects — it fails NotFound and leaves the state unchanged. -/
theorem delete_idempotent (s : StoreState) (anID : String) (u : String) :
    (findBlock s anID = none →
      (DeleteBlock s anID u).2 = s ∧
      ∃ e, (DeleteBlock s anID u).1 = some e ∧ IsErrNotFound (some e) = true) ∧
    ((DeleteBlock s anID u).1 = none →
      (DeleteBlock (DeleteBlock s anID u).2 anID u).2
          = (DeleteBlock s anID u).2 ∧
      ∃ e, (DeleteBlock (DeleteBlock s anID u).2 anID u).1 = some e ∧
        IsErrNotFound (some e) = true) ∧
    (findBoard s anID = none →
      (DeleteBoard s anID u).2 = s ∧
      ∃ e, (DeleteBoard s anID u).1 = some e ∧ IsErrNotFound (some e) = true) ∧
    ((DeleteBoard s anID u).1 = none →
      (DeleteBoard (DeleteBoard s anID u).2 anID u).2
          = (DeleteBoard s anID u).2 ∧
      ∃ e, (DeleteBoard (DeleteBoard s anID u).2 anID u).1 = some e ∧
        IsErrNotFound (some e) = true) := by
  have hblockGone : ∀ s' : StoreState, findBlock s' anID = none →
      (DeleteBlock s' anID u).2 = s' ∧
      ∃ e, (DeleteBlock s' anID u).1 = some e ∧
        IsErrNotFound (some e) = true := by
    intro s' hnone
    rw [DeleteBlock, hnone]
    exact ⟨rfl, NewErrNotFound "block", rfl, rfl⟩
  have hboardGone : ∀ s' : StoreState, findBoard s' anID = none →
      (DeleteBoard s' anID u).2 = s' ∧
      ∃ e, (DeleteBoard s' anID u).1 = some e ∧
        IsErrNotFound (some e) = true := by
    intro s' hnone
    rw [DeleteBoard, hnone]
    exact ⟨rfl, NewErrNotFound "board", rfl, rfl⟩
  refine ⟨hblockGone s, ?_, hboardGone s, ?_⟩
  · intro hok
    rcases hfind : findBlock s anID with _ | b
    · rw [DeleteBlock, hfind] at hok
      exact absurd hok (by simp)
    · have hs2 : (DeleteBlock s anID u).2
          = { s with blocks := s.blocks.filter (fun b => b.id != anID) } := by
        rw [DeleteBlock, hfind]
      have hnone2 : findBlock (DeleteBlock s anID u).2 anID = none := by
        rw [hs2]
        exact find?_id_filter_ne_eq_none Block.id s.blocks anID
      exact hblockGone _ hnone2
  · intro hok
    rcases hfind : findBoard s anID with _ | b
    · rw [DeleteBoard, hfind] at hok
      exact absurd hok (by simp)
    · have hs2 : (DeleteBoard s anID u).2
          = { s with boards := s.boards.filter (fun b => b.id != anID) } := by
        rw [DeleteBoard, hfind]
      have hnone2 : findBoard (DeleteBoard s anID u).2 anID = none := by
        rw [hs2]
        exact find?_id_filter_ne_eq_none Board.id s.boards anID
      exact hboardGone _ hnone2

theorem delete_idempotent_witness :
    ((DeleteBlock ⟨[⟨"c1", "", "c1", "card", "b1"⟩], [⟨"b1", "team1"⟩], []⟩
        "c1" "u1").1 = none) ∧
    ((DeleteBlock (DeleteBlock
        ⟨[⟨"c1", "", "c1", "card", "b1"⟩], [⟨"b1", "team1"⟩], []⟩
        "c1" "u1").2 "c1" "u1").2
      = (DeleteBlock ⟨[⟨"c1", "", "c1", "card", "b1"⟩], [⟨"b1", "team1"⟩], []⟩
        "c1" "u1").2 ∧
      ∃ e, (DeleteBlock (DeleteBlock
          ⟨[⟨"c1", "", "c1", "card", "b1"⟩], [⟨"b1", "team1"⟩], []⟩
          "c1" "u1").2 "c1" "u1").1 = some e ∧
        IsErrNotFound (some e) = true) :=
  ⟨by decide,
    (delete_idempotent
      ⟨[⟨"c1", "", "c1", "card", "b1"⟩], [⟨"b1", "team1"⟩], []⟩
      "c1" "u1").2.1 (by decide)⟩

theorem nearestCard_ok_cardResolution (s : StoreState) (fuel : Nat)
    (b c : Block) (h : nearestCard s fuel b = Except.ok c) :
    CardResolution s b c := by
  induction fuel generalizing b with
  | zero => exact absurd h (by simp [nearestCard])
  | succ fuel ih =>
    rw [nearestCard] at h
    by_cases hcard : b.type == "card"
    · rw [if_pos hcard] at h
      obtain rfl : b = c := by simpa using h
      exact CardResolution.here _ (by simpa using hcard)
    · rw [if_neg hcard] at h
      rcases hfind : findBlock s b.parentID with _ | p
      · rw [hfind] at h
        exact absurd h (by simp)
      · rw [hfind] at h
        exact CardResolution.up b p c (by simpa using hcard) hfind (ih p h)

theorem nearestCard_error_notFound (s : StoreState) (fuel : Nat)
    (b : Block) (e : GoError) (h : nearestCard s fuel b = Except.error e) :
    e = NewErrNotFound "card" := by
  induction fuel generalizing b with
  | zero =>
    rw [nearestCard] at h
    cases h
    rfl
  | succ fuel ih =>
    rw [nearestCard] at h
    by_cases hcard : b.type == "card"
    · rw [if_pos hcard] at h
      exact absurd h (by simp)
    · rw [if_neg hcard] at h
      rcases hfind : findBlock s b.parentID with _ | p
      · rw [hfind] at h
        cases h
        rfl
      · rw [hfind] at h
        exact ih p h

theorem getBoardAndCard_ok_resolves (s : StoreState) (b : Block)
    (brd : Board) (c : Block)
    (h : GetBoardAndCard s b = Except.ok (brd, c)) :
    findBoard s b.boardID = some brd ∧ CardResolution s b c := by
  rw [GetBoardAndCard] at h
  split at h
  next hbd => exact absurd h (by simp)
  next brd2 hbd =>
    split at h
    next c2 hnc =>
      obtain ⟨rfl, rfl⟩ : brd2 = brd ∧ c2 = c := by simpa using h
      exact ⟨hbd, nearestCard_ok_cardResolution s _ b _ hnc⟩
    next e2 hnc => exact absurd h (by simp)

theorem getBoardAndCard_error_isNotFound (s : StoreState) (b : Block)
    (e : GoError) (h : GetBoardAndCard s b = Except.error e) :
    IsErrNotFound (some e) = true := by
  rw [GetBoardAndCard] at h
  split at h
  next hbd =>
    obtain rfl : NewErrNotFound "board" = e := by simpa using h
    rfl
  next brd hbd =>
    split at h
    next c hnc => exact absurd h (by simp)
    next e2 hnc =>
      obtain rfl : e2 = e := by simpa using h
      rw [nearestCard_error_notFound s _ b _ hnc]
      rfl

/-- C9: `GetBoardAndCard` returns both the owning board of the given
block and the nearest card at or above it, `GetBoardAndCardByID` does
the same for the block fetched by identifier, and whenever the block,
its board or a card cannot be resolved either operation fails with a
NotFound error — never a partial result. -/
theorem boardAndCard_resolution_spec (s : StoreState) (blk : Block)
    (blockID : String) :
    (∀ brd c, GetBoardAndCard s blk = Except.ok (brd, c) →
      findBoard s blk.boardID = some brd ∧ CardResolution s blk c) ∧
    (∀ e, GetBoardAndCard s blk = Except.error e →
      IsErrNotFound (some e) = true) ∧
    (∀ brd c, GetBoardAndCardByID s blockID = Except.ok (brd, c) →
      ∃ b, findBlock s blockID = some b ∧ findBoard s b.boardID = some brd ∧
        CardResolution s b c) ∧
    (∀ e, GetBoardAndCardByID s blockID = Except.error e →
      IsErrNotFound (some e) = true) := by
  refine ⟨fun brd c h => getBoardAndCard_ok_resolves s blk brd c h,
    fun e h => getBoardAndCard_error_isNotFound s blk e h, ?_, ?_⟩
  · intro brd c hok
    rw [GetBoardAndCardByID] at hok
    split at hok
    next hb => exact absurd hok (by simp)
    next b hb =>
      exact ⟨b, hb, (getBoardAndCard_ok_resolves s b brd c hok).1,
        (getBoardAndCard_ok_resolves s b brd c hok).2⟩
  · intro e herr
    rw [GetBoardAndCardByID] at herr
    split at herr
    next hb =>
      obtain rfl : NewErrNotFound "block" = e := by simpa using herr
      rfl
    next b hb => exact getBoardAndCard_error_isNotFound s b e herr

theorem boardAndCard_resolution_spec_witness :
    (findBoard
        ⟨[⟨"t1", "c1", "c1", "text", "b1"⟩, ⟨"c1", "", "c1", "card", "b1"⟩],
          [⟨"b1", "team1"⟩], []⟩
        (Block.boardID ⟨"t1", "c1", "c1", "text", "b1"⟩)
          = some ⟨"b1", "team1"⟩ ∧
      CardResolution
        ⟨[⟨"t1", "c1", "c1", "text", "b1"⟩, ⟨"c1", "", "c1", "card", "b1"⟩],
          [⟨"b1", "team1"⟩], []⟩
        ⟨"t1", "c1", "c1", "text", "b1"⟩ ⟨"c1", "", "c1", "card", "b1"⟩) ∧
    (∃ b, findBlock
        ⟨[⟨"t1", "c1", "c1", "text", "b1"⟩, ⟨"c1", "", "c1", "card", "b1"⟩],
          [⟨"b1", "team1"⟩], []⟩ "t1" = some b ∧
      findBoard
        ⟨[⟨"t1", "c1", "c1", "text", "b1"⟩, ⟨"c1", "", "c1", "card", "b1"⟩],
          [⟨"b1", "team1"⟩], []⟩ b.boardID = some ⟨"b1", "team1"⟩ ∧
      CardResolution
        ⟨[⟨"t1", "c1", "c1", "text", "b1"⟩, ⟨"c1", "", "c1", "card", "b1"⟩],
          [⟨"b1", "team1"⟩], []⟩ b ⟨"c1", "", "c1", "card", "b1"⟩) :=
  ⟨(boardAndCard_resolution_spec
      ⟨[⟨"t1", "c1", "c1", "text", "b1"⟩, ⟨"c1", "", "c1", "card", "b1"⟩],
        [⟨"b1", "team1"⟩], []⟩
      ⟨"t1", "c1", "c1", "text", "b1"⟩ "t1").1
    ⟨"b1", "team1"⟩ ⟨"c1", "", "c1", "card", "b1"⟩ (by decide),
   (boardAndCard_resolution_spec
      ⟨[⟨"t1", "c1", "c1", "text", "b1"⟩, ⟨"c1", "", "c1", "card", "b1"⟩],
        [⟨"b1", "team1"⟩], []⟩
      ⟨"t1", "c1", "c1", "text", "b1"⟩ "t1").2.2.1
    ⟨"b1", "team1"⟩ ⟨"c1", "", "c1", "card", "b1"⟩ (by decide)⟩
